import Mathlib

/-!
Verification of the classbridge-ai-chat repository against its specification.

We shallowly embed the two components the claims concern:
* the Completion Proxy — the serverless edge function (`serve` handler) that
  validates a `{message}` request, forwards it to the external completion API
  and relays the result;
* the Conversation Controller — the `handleSendMessage` send flow and the
  `updateDisplayName` profile operation of the chat component.

Effects are made explicit: fallible steps (JSON parsing, the upstream fetch,
store writes) are injected as `Option`/`Bool` parameters, and the controller
additionally emits an event trace recording the order of persistence, view
updates, proxy invocation and error surfacing.
-/

namespace ClassBridge

/-! ### Completion Proxy (edge function) -/

/-- One role-tagged entry of the prompt forwarded to the external API. -/
structure PayloadMsg where
  role : String
  content : String
deriving DecidableEq, Repr

/-- The fixed system instruction attached to every forwarded prompt. -/
def systemInstruction : String :=
  "You are a helpful AI assistant for ClassBridge, an education platform. Help students and teachers with their educational needs. Be concise, accurate, and supportive in your responses."

/-- The payload built for the external completion API
(`temperature: 0.7` is a constant irrelevant to the claims and not modelled). -/
structure OpenAIPayload where
  model : String
  messages : List PayloadMsg
  max_tokens : Nat
deriving DecidableEq, Repr

/-- `openAIPayload` as constructed in the handler for a given user message. -/
def openAIPayload (message : String) : OpenAIPayload :=
  { model := "gpt-4.1-2025-04-14"
  , messages := [⟨"system", systemInstruction⟩, ⟨"user", message⟩]
  , max_tokens := 1000 }

/-- The JSON body of a proxy response, structured. -/
inductive RespBody where
  /-- `null` body (the OPTIONS preflight answer). -/
  | empty : RespBody
  /-- `{ "error": e }` -/
  | err (e : String) : RespBody
  /-- `{ "error": e, "details": d }` -/
  | errWithDetails (e d : String) : RespBody
  /-- `{ "response": r }` -/
  | ok (r : String) : RespBody
deriving DecidableEq, Repr

/-- An HTTP response of the proxy (CORS headers are constant and not modelled). -/
structure HttpResponse where
  status : Nat
  body : RespBody
deriving DecidableEq, Repr

/-- A parsed request body: the `message` field may be absent (`none` covers
JS `undefined`/`null`, which are falsy like the empty string). -/
structure ReqBody where
  message : Option String
deriving DecidableEq, Repr

/-- An incoming request. `body` is the result of `await req.json()`:
`none` means the body was not valid JSON and parsing threw. -/
structure ProxyRequest where
  method : String
  body : Option ReqBody
deriving DecidableEq, Repr

/-- Parsed JSON of a successful upstream response:
`choices` lists each choice's `message.content`. -/
structure UpstreamData where
  choices : List String
deriving DecidableEq, Repr

/-- The upstream fetch result. `json` is the result of `response.json()`:
`none` means parsing threw. -/
structure UpstreamResp where
  status : Nat
  text : String
  json : Option UpstreamData
deriving DecidableEq, Repr

/-- `Response.ok`: status in the 2xx range. -/
def statusOk (status : Nat) : Bool :=
  200 ≤ status && status < 300

/-- The 400 validation response. -/
def messageRequired : HttpResponse :=
  { status := 400, body := .err "Message is required" }

/-- The response produced by the outermost `catch`. -/
def internalError : HttpResponse :=
  { status := 500, body := .err "Internal server error" }

/-- The `serve` handler of the chatbot edge function. Arguments inject the
environment: the server-held API key, the request, and the upstream fetch
result (`none` means `fetch` itself threw). The second component of the
result records the outbound call made to the external API, if any. -/
def chatbotHandler (openAIApiKey : Option String) (req : ProxyRequest)
    (upstream : Option UpstreamResp) : HttpResponse × Option OpenAIPayload :=
  if req.method = "OPTIONS" then
    ({ status := 200, body := .empty }, none)
  else
    match req.body with
    | none => (internalError, none)
    | some b =>
      match b.message with
      | none => (messageRequired, none)
      | some message =>
        if message = "" then (messageRequired, none)
        else
          match openAIApiKey with
          | none => ({ status := 500, body := .err "OpenAI API key not configured" }, none)
          | some _ =>
            let payload := openAIPayload message
            match upstream with
            | none => (internalError, some payload)
            | some resp =>
              if ¬ statusOk resp.status then
                ({ status := 500
                 , body := .errWithDetails "Failed to get response from AI"
                     ("OpenAI API returned " ++ toString resp.status ++ ": " ++ resp.text) },
                 some payload)
              else
                match resp.json with
                | none => (internalError, some payload)
                | some data =>
                  match data.choices with
                  | [] => (internalError, some payload)
                  | c :: _ => ({ status := 200, body := .ok c }, some payload)

/-! ### Conversation Controller (ChatBot component, send flow) -/

/-- JS `String.prototype.trim`: remove leading and trailing whitespace.
Modelled directly on the character list so it evaluates in the kernel. -/
def jsTrim (s : String) : String :=
  ⟨((s.data.dropWhile Char.isWhitespace).reverse.dropWhile Char.isWhitespace).reverse⟩

/-- A chat turn as stored and shown: the store assigns the id on insert
(modelled as the row index; creation timestamps follow insertion order). -/
structure ChatMessage where
  id : Nat
  role : String
  content : String
deriving DecidableEq, Repr

/-- The controller state relevant to the send flow: the in-memory view
(`messages`), the persisted per-user log (`store`), the input field and the
loading flag (`loading = false` is the Ready state, `true` is Sending). -/
structure ChatState where
  messages : List ChatMessage
  store : List ChatMessage
  inputValue : String
  loading : Bool
deriving DecidableEq, Repr

/-- `saveMessage`: insert a row for this user and return the saved record. -/
def saveMessage (store : List ChatMessage) (role content : String) :
    List ChatMessage × ChatMessage :=
  let m : ChatMessage := { id := store.length, role := role, content := content }
  (store ++ [m], m)

/-- Observable events of one send, in the order they happen. -/
inductive SendEvent where
  | persistUser (content : String)
  | viewAppendUser (content : String)
  | proxyCall (message : String)
  | persistAssistant (content : String)
  | viewAppendAssistant (content : String)
  /-- the destructive "Failed to send message" toast -/
  | surfaceError
deriving DecidableEq, Repr

/-- Injected outcomes of the fallible steps of one send:
whether the user-turn insert fails, what the proxy invocation returns
(`none` = error), and whether the assistant-turn insert fails. -/
structure SendEnv where
  saveUserFails : Bool
  proxyResult : Option String
  saveAssistantFails : Bool
deriving DecidableEq, Repr

/-- `handleSendMessage`: the complete send flow. Returns the new state and
the trace of events in execution order. -/
def handleSendMessage (env : SendEnv) (s : ChatState) :
    ChatState × List SendEvent :=
  if jsTrim s.inputValue = "" ∨ s.loading = true then (s, [])
  else
    let userMessage := jsTrim s.inputValue
    let s1 : ChatState := { s with inputValue := "", loading := true }
    if env.saveUserFails then
      ({ s1 with loading := false }, [.surfaceError])
    else
      let saved := saveMessage s1.store "user" userMessage
      let s2 : ChatState :=
        { s1 with store := saved.1, messages := s1.messages ++ [saved.2] }
      let ev1 : List SendEvent :=
        [.persistUser userMessage, .viewAppendUser userMessage, .proxyCall userMessage]
      match env.proxyResult with
      | none => ({ s2 with loading := false }, ev1 ++ [.surfaceError])
      | some assistantResponse =>
        if env.saveAssistantFails then
          ({ s2 with loading := false }, ev1 ++ [.surfaceError])
        else
          let saved2 := saveMessage s2.store "assistant" assistantResponse
          ({ s2 with
              store := saved2.1,
              messages := s2.messages ++ [saved2.2],
              loading := false },
           ev1 ++ [.persistAssistant assistantResponse,
                   .viewAppendAssistant assistantResponse])

/-- Iterated successful round trips: for each `(input, response)` pair the
user types `input` and the proxy answers `response`, with no storage failure. -/
def runSends (sends : List (String × String)) (s : ChatState) : ChatState :=
  match sends with
  | [] => s
  | (input, resp) :: rest =>
      runSends rest
        (handleSendMessage ⟨false, some resp, false⟩ { s with inputValue := input }).1

/-! ### Profile Access (ChatBot component, display-name update) -/

/-- A row of the `profiles` table. -/
structure ProfileRow where
  id : String
  display_name : Option String
  email : String
deriving DecidableEq, Repr

/-- The state `updateDisplayName` touches: the `profiles` table, the local
`profile` React state, and the name dialog's open flag. -/
structure ProfileState where
  store : List ProfileRow
  profile : Option ProfileRow
  nameDialogOpen : Bool
deriving DecidableEq, Repr

/-- The store-side `update({display_name}).eq('id', uid)`. -/
def storeSetDisplayName (store : List ProfileRow) (uid name : String) :
    List ProfileRow :=
  store.map (fun r => if r.id = uid then { r with display_name := some name } else r)

/-- `loadProfile`'s read: `select().eq('id', uid).single()`. -/
def loadProfileRow (store : List ProfileRow) (uid : String) : Option ProfileRow :=
  store.find? (fun r => r.id = uid)

/-- `updateDisplayName` for user `uid` with input field `displayNameInput`;
`updateFails` injects a storage error (the `catch` branch: toast only). -/
def updateDisplayName (displayNameInput uid : String) (updateFails : Bool)
    (s : ProfileState) : ProfileState :=
  if jsTrim displayNameInput = "" then s
  else if updateFails then s
  else
    { store := storeSetDisplayName s.store uid (jsTrim displayNameInput)
    , profile := s.profile.map
        (fun p => { p with display_name := some (jsTrim displayNameInput) })
    , nameDialogOpen := false }

/-! ### Theorems: Completion Proxy -/

/-- **C3**: for an empty or missing `message` field in a (non-OPTIONS) request
whose body parsed, the proxy returns status 400 with body
`{"error": "Message is required"}` and makes no outbound call, whatever the
API key or the upstream would have answered. -/
theorem C3_empty_message_rejected (key : Option String) (method : String)
    (b : ReqBody) (up : Option UpstreamResp) (hm : method ≠ "OPTIONS")
    (h : b.message = none ∨ b.message = some "") :
    chatbotHandler key ⟨method, some b⟩ up = (messageRequired, none) ∧
    messageRequired.status = 400 ∧
    messageRequired.body = .err "Message is required" := by
  refine ⟨?_, rfl, rfl⟩
  unfold chatbotHandler
  rcases h with h | h <;> simp [hm, h]

/-- Witness for C3 at a concrete request with `message = ""`. -/
theorem C3_empty_message_rejected_witness :
    chatbotHandler (some "k") ⟨"POST", some ⟨some ""⟩⟩ none = (messageRequired, none) ∧
    messageRequired.status = 400 ∧
    messageRequired.body = .err "Message is required" :=
  C3_empty_message_rejected (some "k") "POST" ⟨some ""⟩ none (by decide) (Or.inr rfl)

/-- **C4**: for every non-empty message accepted by the proxy (key present),
the forwarded prompt is exactly the fixed system instruction followed by the
single user message — no history — and on upstream success the proxy answers
200 with only the first choice's content as the `response` field. -/
theorem C4_stateless_prompt (key method msg : String) (up : Option UpstreamResp)
    (hm : method ≠ "OPTIONS") (hmsg : msg ≠ "") :
    ((chatbotHandler (some key) ⟨method, some ⟨some msg⟩⟩ up).2 =
        some (openAIPayload msg) ∧
      (openAIPayload msg).messages =
        [⟨"system", systemInstruction⟩, ⟨"user", msg⟩]) ∧
    (∀ st txt c rest, up = some ⟨st, txt, some ⟨c :: rest⟩⟩ → statusOk st = true →
      (chatbotHandler (some key) ⟨method, some ⟨some msg⟩⟩ up).1 =
        ⟨200, .ok c⟩) := by
  constructor
  · refine ⟨?_, rfl⟩
    unfold chatbotHandler
    simp only [hm, if_neg, ite_false]
    cases up with
    | none => simp [hm, hmsg]
    | some resp =>
      by_cases hok : statusOk resp.status <;>
        cases hj : resp.json with
        | none => simp [hm, hmsg, hok, hj]
        | some d =>
          obtain ⟨choices⟩ := d
          cases choices <;> simp_all [chatbotHandler]
  · rintro st txt c rest rfl hok
    unfold chatbotHandler
    simp [hm, hmsg, hok]

/-- Witness for C4 at a concrete accepted message and successful upstream. -/
theorem C4_stateless_prompt_witness :
    ((chatbotHandler (some "k") ⟨"POST", some ⟨some "q"⟩⟩
          (some ⟨200, "", some ⟨["ans"]⟩⟩)).2 = some (openAIPayload "q") ∧
      (openAIPayload "q").messages =
        [⟨"system", systemInstruction⟩, ⟨"user", "q"⟩]) ∧
    (∀ st txt c rest,
      (some ⟨200, "", some ⟨["ans"]⟩⟩ : Option UpstreamResp) =
          some ⟨st, txt, some ⟨c :: rest⟩⟩ → statusOk st = true →
      (chatbotHandler (some "k") ⟨"POST", some ⟨some "q"⟩⟩
          (some ⟨200, "", some ⟨["ans"]⟩⟩)).1 = ⟨200, .ok c⟩) :=
  C4_stateless_prompt "k" "POST" "q" (some ⟨200, "", some ⟨["ans"]⟩⟩)
    (by decide) (by decide)

/-- **C7**: when the upstream fetch completes with a non-2xx status, the proxy
returns status 500 with an `error` string and a `details` string carrying the
upstream status code and the upstream response body. -/
theorem C7_upstream_failure_detail (key method msg : String) (hm : method ≠ "OPTIONS")
    (hmsg : msg ≠ "") (st : Nat) (txt : String) (j : Option UpstreamData)
    (hst : statusOk st = false) :
    (chatbotHandler (some key) ⟨method, some ⟨some msg⟩⟩ (some ⟨st, txt, j⟩)).1 =
      ⟨500, .errWithDetails "Failed to get response from AI"
        ("OpenAI API returned " ++ toString st ++ ": " ++ txt)⟩ := by
  unfold chatbotHandler
  simp [hm, hmsg, hst]

set_option maxRecDepth 40000 in
/-- Witness for C7 at a concrete 429 upstream failure. -/
theorem C7_upstream_failure_detail_witness :
    (chatbotHandler (some "k") ⟨"POST", some ⟨some "q"⟩⟩
        (some ⟨429, "rate limited", none⟩)).1 =
      ⟨500, .errWithDetails "Failed to get response from AI"
        ("OpenAI API returned " ++ toString 429 ++ ": " ++ "rate limited")⟩ :=
  C7_upstream_failure_detail "k" "POST" "q" (by decide) (by decide)
    429 "rate limited" none (by decide)

/-- **C8**: the handler is total — every non-OPTIONS request gets a response
with status 200, 400 or 500 — and every modelled exception path (request body
not JSON, upstream fetch throwing, upstream response body not JSON, empty
choice list) is converted to status 500 `{"error": "Internal server error"}`. -/
theorem C8_handler_total (key : Option String) (req : ProxyRequest)
    (up : Option UpstreamResp) (hm : req.method ≠ "OPTIONS") :
    ((chatbotHandler key req up).1.status = 200 ∨
     (chatbotHandler key req up).1.status = 400 ∨
     (chatbotHandler key req up).1.status = 500) ∧
    (req.body = none → chatbotHandler key req up = (internalError, none)) ∧
    (∀ k msg, key = some k → req.body = some ⟨some msg⟩ → msg ≠ "" →
      (up = none →
        (chatbotHandler key req up).1 = internalError) ∧
      (∀ st txt, up = some ⟨st, txt, none⟩ → statusOk st = true →
        (chatbotHandler key req up).1 = internalError) ∧
      (∀ st txt, up = some ⟨st, txt, some ⟨[]⟩⟩ → statusOk st = true →
        (chatbotHandler key req up).1 = internalError)) := by
  obtain ⟨method, body⟩ := req
  refine ⟨?_, ?_, ?_⟩
  · unfold chatbotHandler
    simp only at hm
    rcases body with _ | ⟨_ | msg⟩ <;> simp [hm, internalError, messageRequired]
    by_cases hmsg : msg = "" <;> simp [hmsg]
    cases key <;> simp
    cases up with
    | none => simp
    | some resp =>
      by_cases hok : statusOk resp.status <;>
        cases hj : resp.json with
        | none => simp [hok, hj]
        | some d =>
          obtain ⟨choices⟩ := d
          cases choices <;> simp_all
  · rintro rfl
    unfold chatbotHandler
    simp [hm]
  · rintro k msg rfl rfl hmsg
    refine ⟨?_, ?_, ?_⟩
    · rintro rfl
      unfold chatbotHandler
      simp [hm, hmsg]
    · rintro st txt rfl hok
      unfold chatbotHandler
      simp [hm, hmsg, hok]
    · rintro st txt rfl hok
      unfold chatbotHandler
      simp [hm, hmsg, hok]

/-- Witness for C8 at a concrete request whose body failed to parse. -/
theorem C8_handler_total_witness :
    (((chatbotHandler (some "k") ⟨"POST", none⟩ none).1.status = 200 ∨
      (chatbotHandler (some "k") ⟨"POST", none⟩ none).1.status = 400 ∨
      (chatbotHandler (some "k") ⟨"POST", none⟩ none).1.status = 500) ∧
     ((⟨"POST", none⟩ : ProxyRequest).body = none →
       chatbotHandler (some "k") ⟨"POST", none⟩ none = (internalError, none)) ∧
     (∀ k msg, (some "k" : Option String) = some k →
       (⟨"POST", none⟩ : ProxyRequest).body = some ⟨some msg⟩ → msg ≠ "" →
       ((none : Option UpstreamResp) = none →
         (chatbotHandler (some "k") ⟨"POST", none⟩ none).1 = internalError) ∧
       (∀ st txt, (none : Option UpstreamResp) = some ⟨st, txt, none⟩ →
         statusOk st = true →
         (chatbotHandler (some "k") ⟨"POST", none⟩ none).1 = internalError) ∧
       (∀ st txt, (none : Option UpstreamResp) = some ⟨st, txt, some ⟨[]⟩⟩ →
         statusOk st = true →
         (chatbotHandler (some "k") ⟨"POST", none⟩ none).1 = internalError))) :=
  C8_handler_total (some "k") ⟨"POST", none⟩ none (by decide)

/-- **C10**: a request whose body is not valid JSON is answered from the
outermost catch — status 500, `{"error": "Internal server error"}` — not with
the 400 client error, and no outbound call is made. -/
theorem C10_invalid_json_is_500 (key : Option String) (method : String)
    (up : Option UpstreamResp) (hm : method ≠ "OPTIONS") :
    chatbotHandler key ⟨method, none⟩ up = (internalError, none) ∧
    internalError.status = 500 ∧
    internalError.body = .err "Internal server error" ∧
    internalError.status ≠ 400 := by
  refine ⟨?_, rfl, rfl, by decide⟩
  unfold chatbotHandler
  simp [hm]

/-- Witness for C10 at a concrete unparsable-body request. -/
theorem C10_invalid_json_is_500_witness :
    chatbotHandler (some "k") ⟨"POST", none⟩ none = (internalError, none) ∧
    internalError.status = 500 ∧
    internalError.body = .err "Internal server error" ∧
    internalError.status ≠ 400 :=
  C10_invalid_json_is_500 (some "k") "POST" none (by decide)

/-! ### Theorems: Conversation Controller -/

/-- A fully successful send, spelled out: state and trace. -/
theorem handleSendMessage_success_eq (resp : String) (s : ChatState)
    (hl : s.loading = false) (hin : jsTrim s.inputValue ≠ "") :
    handleSendMessage ⟨false, some resp, false⟩ s =
      (⟨s.messages ++ [⟨s.store.length, "user", jsTrim s.inputValue⟩,
                       ⟨s.store.length + 1, "assistant", resp⟩],
        s.store ++ [⟨s.store.length, "user", jsTrim s.inputValue⟩,
                    ⟨s.store.length + 1, "assistant", resp⟩],
        "", false⟩,
       [.persistUser (jsTrim s.inputValue), .viewAppendUser (jsTrim s.inputValue),
        .proxyCall (jsTrim s.inputValue), .persistAssistant resp,
        .viewAppendAssistant resp]) := by
  unfold handleSendMessage saveMessage
  rw [if_neg (by simp [hin, hl])]
  simp

/-- Iterating successful round trips from a Ready state grows the store by
exactly two rows per round trip. -/
theorem runSends_store_length (sends : List (String × String)) (s : ChatState)
    (hl : s.loading = false) (hs : ∀ p ∈ sends, jsTrim p.1 ≠ "") :
    (runSends sends s).store.length = s.store.length + 2 * sends.length := by
  induction sends generalizing s with
  | nil => simp [runSends]
  | cons p rest ih =>
    obtain ⟨input, resp⟩ := p
    have hin : jsTrim ({ s with inputValue := input } : ChatState).inputValue ≠ "" := by
      simpa using hs ⟨input, resp⟩ (List.mem_cons_self _ _)
    rw [runSends, handleSendMessage_success_eq resp { s with inputValue := input }
      (by simpa using hl) hin]
    rw [ih _ rfl (fun q hq => hs q (List.mem_cons_of_mem _ hq))]
    simp only [List.length_append, List.length_cons, List.length_nil]
    ring

/-- **C5**: a submission while one is in flight (`loading`), or whose input is
empty after trimming, is a no-op: state unchanged, no events (no store write,
no proxy call, no view change) — hence at most one submission is in flight. -/
theorem C5_reentrant_or_empty_noop (env : SendEnv) (s : ChatState)
    (h : jsTrim s.inputValue = "" ∨ s.loading = true) :
    handleSendMessage env s = (s, []) := by
  unfold handleSendMessage
  rw [if_pos h]

/-- Witness for C5: a send attempted while already Sending. -/
theorem C5_reentrant_or_empty_noop_witness :
    handleSendMessage ⟨false, some "ok", false⟩ ⟨[], [], "x", true⟩ =
      (⟨[], [], "x", true⟩, []) :=
  C5_reentrant_or_empty_noop ⟨false, some "ok", false⟩ ⟨[], [], "x", true⟩
    (Or.inr rfl)

/-- **C1**: if a step fails after the user turn was persisted (proxy error, or
assistant-turn insert failure), then the user turn remains in store and view,
no assistant message is stored or shown, a generic error is surfaced once, the
loading flag is cleared (back to Ready) and the proxy was called exactly once
(no retry): the final state and the full event trace are exactly these. -/
theorem C1_failure_after_user_turn (env : SendEnv) (s : ChatState)
    (hl : s.loading = false) (hin : jsTrim s.inputValue ≠ "")
    (hsu : env.saveUserFails = false)
    (hfail : env.proxyResult = none ∨ env.saveAssistantFails = true) :
    handleSendMessage env s =
      (⟨s.messages ++ [⟨s.store.length, "user", jsTrim s.inputValue⟩],
        s.store ++ [⟨s.store.length, "user", jsTrim s.inputValue⟩],
        "", false⟩,
       [.persistUser (jsTrim s.inputValue), .viewAppendUser (jsTrim s.inputValue),
        .proxyCall (jsTrim s.inputValue), .surfaceError]) := by
  obtain ⟨su, pr, sa⟩ := env
  simp only at hsu hfail
  subst hsu
  unfold handleSendMessage saveMessage
  rw [if_neg (by simp [hin, hl])]
  rcases hfail with h | h
  · subst h; simp
  · subst h; cases pr <;> simp

set_option maxRecDepth 40000 in
/-- Witness for C1: proxy invocation fails on a concrete Ready state. -/
theorem C1_failure_after_user_turn_witness :
    handleSendMessage ⟨false, none, false⟩ ⟨[], [], "hello", false⟩ =
      (⟨[⟨0, "user", "hello"⟩], [⟨0, "user", "hello"⟩], "", false⟩,
       [.persistUser "hello", .viewAppendUser "hello",
        .proxyCall "hello", .surfaceError]) := by
  have h := C1_failure_after_user_turn ⟨false, none, false⟩ ⟨[], [], "hello", false⟩
    rfl (by decide) rfl (Or.inl rfl)
  simpa using h

/-- **C2**: in a successful round trip the user turn is persisted and shown
before the proxy is invoked, and the assistant turn is persisted before it is
shown (the trace is exactly in that order), the store gains exactly the user
row then the assistant row; and iterating `N` successful round trips adds
exactly `2N` stored messages. -/
theorem C2_causal_order_and_count (s s0 : ChatState) (resp : String)
    (sends : List (String × String))
    (hl : s.loading = false) (hin : jsTrim s.inputValue ≠ "")
    (hl0 : s0.loading = false) (hsends : ∀ p ∈ sends, jsTrim p.1 ≠ "") :
    handleSendMessage ⟨false, some resp, false⟩ s =
      (⟨s.messages ++ [⟨s.store.length, "user", jsTrim s.inputValue⟩,
                       ⟨s.store.length + 1, "assistant", resp⟩],
        s.store ++ [⟨s.store.length, "user", jsTrim s.inputValue⟩,
                    ⟨s.store.length + 1, "assistant", resp⟩],
        "", false⟩,
       [.persistUser (jsTrim s.inputValue), .viewAppendUser (jsTrim s.inputValue),
        .proxyCall (jsTrim s.inputValue), .persistAssistant resp,
        .viewAppendAssistant resp]) ∧
    (runSends sends s0).store.length = s0.store.length + 2 * sends.length :=
  ⟨handleSendMessage_success_eq resp s hl hin,
   runSends_store_length sends s0 hl0 hsends⟩

set_option maxRecDepth 40000 in
/-- Witness for C2: one concrete round trip and two iterated round trips. -/
theorem C2_causal_order_and_count_witness :
    handleSendMessage ⟨false, some "ok", false⟩ ⟨[], [], "hello", false⟩ =
      (⟨[⟨0, "user", "hello"⟩, ⟨1, "assistant", "ok"⟩],
        [⟨0, "user", "hello"⟩, ⟨1, "assistant", "ok"⟩], "", false⟩,
       [.persistUser "hello", .viewAppendUser "hello", .proxyCall "hello",
        .persistAssistant "ok", .viewAppendAssistant "ok"]) ∧
    (runSends [("a", "b"), ("c", "d")] ⟨[], [], "", false⟩).store.length =
      0 + 2 * 2 := by
  have h := C2_causal_order_and_count ⟨[], [], "hello", false⟩ ⟨[], [], "", false⟩
    "ok" [("a", "b"), ("c", "d")] rfl (by decide) rfl (by decide)
  simpa using h

/-- **C6** (as amended): the message the controller sends to the proxy and the
content it persists as the user turn both equal the trimmed submitted text:
whenever the user-turn insert succeeds, the trace begins with persisting and
showing the trimmed text and then invoking the proxy with that same trimmed
text, and the store gains the trimmed text as the user row. -/
theorem C6_trimmed_text_sent (env : SendEnv) (s : ChatState)
    (hl : s.loading = false) (hin : jsTrim s.inputValue ≠ "")
    (hsu : env.saveUserFails = false) :
    (handleSendMessage env s).2.take 3 =
      [.persistUser (jsTrim s.inputValue), .viewAppendUser (jsTrim s.inputValue),
       .proxyCall (jsTrim s.inputValue)] ∧
    ∃ rest, (handleSendMessage env s).1.store =
      s.store ++ ⟨s.store.length, "user", jsTrim s.inputValue⟩ :: rest := by
  obtain ⟨su, pr, sa⟩ := env
  simp only at hsu
  subst hsu
  unfold handleSendMessage saveMessage
  rw [if_neg (by simp [hin, hl])]
  cases pr with
  | none => exact ⟨by simp, [], by simp⟩
  | some resp =>
    cases sa
    · exact ⟨by simp, [⟨s.store.length + 1, "assistant", resp⟩], by simp⟩
    · exact ⟨by simp, [], by simp⟩

set_option maxRecDepth 40000 in
/-- Witness for C6 (amended) at a concrete padded input. -/
theorem C6_trimmed_text_sent_witness :
    (handleSendMessage ⟨false, some "ok", false⟩ ⟨[], [], " hi ", false⟩).2.take 3 =
      [.persistUser (jsTrim " hi "), .viewAppendUser (jsTrim " hi "),
       .proxyCall (jsTrim " hi ")] ∧
    ∃ rest, (handleSendMessage ⟨false, some "ok", false⟩
        ⟨[], [], " hi ", false⟩).1.store =
      [] ++ (⟨0, "user", jsTrim " hi "⟩ : ChatMessage) :: rest :=
  C6_trimmed_text_sent ⟨false, some "ok", false⟩ ⟨[], [], " hi ", false⟩
    rfl (by decide) rfl

set_option maxRecDepth 40000 in
/-- **C6** (counterexample to the claim as stated): on input `" hi "` the
proxy is invoked with and the store receives `"hi"`, not the entered text
`" hi "` — the submitted value is trimmed first. -/
theorem C6_counterexample_raw_text :
    (handleSendMessage ⟨false, some "ok", false⟩ ⟨[], [], " hi ", false⟩).2 =
      [.persistUser "hi", .viewAppendUser "hi", .proxyCall "hi",
       .persistAssistant "ok", .viewAppendAssistant "ok"] ∧
    SendEvent.proxyCall " hi " ∉
      (handleSendMessage ⟨false, some "ok", false⟩ ⟨[], [], " hi ", false⟩).2 ∧
    (handleSendMessage ⟨false, some "ok", false⟩ ⟨[], [], " hi ", false⟩).1.store =
      [⟨0, "user", "hi"⟩, ⟨1, "assistant", "ok"⟩] ∧
    ("hi" : String) ≠ " hi " := by
  decide

/-! ### Theorems: Profile Access -/

/-- Reading back a row after the display-name store update. -/
theorem loadProfileRow_setDisplayName (store : List ProfileRow)
    (uid name : String) :
    loadProfileRow (storeSetDisplayName store uid name) uid =
      (loadProfileRow store uid).map
        (fun r => { r with display_name := some name }) := by
  induction store with
  | nil => rfl
  | cons r rest ih =>
    simp only [loadProfileRow, storeSetDisplayName, List.map_cons,
      List.find?_cons] at ih ⊢
    by_cases h : r.id = uid
    · simp [h]
    · simp [h, ih]

/-- The display-name store update is idempotent. -/
theorem storeSetDisplayName_idem (store : List ProfileRow) (uid name : String) :
    storeSetDisplayName (storeSetDisplayName store uid name) uid name =
      storeSetDisplayName store uid name := by
  unfold storeSetDisplayName
  rw [List.map_map]
  apply List.map_congr_left
  intro r _
  by_cases h : r.id = uid <;> simp [h]

/-- **C9**: `updateDisplayName` with a name blank after trimming is a no-op
(store, local profile state and dialog unchanged); with a valid name the
stored display name is overwritten with the trimmed name, so a subsequent
load reflects it; and repeating the same update is idempotent. -/
theorem C9_updateDisplayName_contract (blank valid uid : String)
    (s : ProfileState) (r : ProfileRow)
    (hb : jsTrim blank = "") (hv : jsTrim valid ≠ "")
    (hr : loadProfileRow s.store uid = some r) :
    updateDisplayName blank uid false s = s ∧
    loadProfileRow (updateDisplayName valid uid false s).store uid =
      some { r with display_name := some (jsTrim valid) } ∧
    updateDisplayName valid uid false (updateDisplayName valid uid false s) =
      updateDisplayName valid uid false s := by
  refine ⟨by simp [updateDisplayName, hb], ?_, ?_⟩
  · simp [updateDisplayName, hv, loadProfileRow_setDisplayName, hr]
  · cases hp : s.profile <;>
      simp [updateDisplayName, hv, storeSetDisplayName_idem, hp]

set_option maxRecDepth 40000 in
/-- Witness for C9 on a concrete one-row profile table. -/
theorem C9_updateDisplayName_contract_witness :
    updateDisplayName "  " "u1" false
        ⟨[⟨"u1", none, "a@b.c"⟩], some ⟨"u1", none, "a@b.c"⟩, true⟩ =
      ⟨[⟨"u1", none, "a@b.c"⟩], some ⟨"u1", none, "a@b.c"⟩, true⟩ ∧
    loadProfileRow (updateDisplayName "Alice " "u1" false
        ⟨[⟨"u1", none, "a@b.c"⟩], some ⟨"u1", none, "a@b.c"⟩, true⟩).store "u1" =
      some ⟨"u1", some (jsTrim "Alice "), "a@b.c"⟩ ∧
    updateDisplayName "Alice " "u1" false (updateDisplayName "Alice " "u1" false
        ⟨[⟨"u1", none, "a@b.c"⟩], some ⟨"u1", none, "a@b.c"⟩, true⟩) =
      updateDisplayName "Alice " "u1" false
        ⟨[⟨"u1", none, "a@b.c"⟩], some ⟨"u1", none, "a@b.c"⟩, true⟩ :=
  C9_updateDisplayName_contract "  " "Alice " "u1"
    ⟨[⟨"u1", none, "a@b.c"⟩], some ⟨"u1", none, "a@b.c"⟩, true⟩
    ⟨"u1", none, "a@b.c"⟩ (by decide) (by decide) (by decide)

end ClassBridge
